import Mathlib

/-!
# ZetaNet network-resource allocation: verified shallow embedding

This file embeds the allocation / reconciliation logic of the ZetaNet
frontend (NodosRedPage.jsx, DashboardPage.jsx, CellsPage.jsx,
CellDetailPage.jsx) as executable Lean definitions and proves the spec
properties about them.  JavaScript numbers are idealised as `ℚ` where
division occurs, byte counters and identifiers as `ℕ`, and form fields
as `String` with the empty string playing the role of a falsy value.
-/

namespace ZetaNet

/-- One address slot of an interface pool as rendered by
`InterfaceIpBlock` (NodosRedPage.jsx): the fields the filter logic
inspects. -/
structure IpSlot where
  ip : String
  occupied : Bool
  client_name : String
  deriving DecidableEq, Repr

/-- The slot filter of `InterfaceIpBlock` (NodosRedPage.jsx lines
360-365): `allIps.filter` keeping occupied slots, free slots, or all of
them according to the `filterOccupied` mode string. -/
def filteredIps (filterOccupied : String) (allIps : List IpSlot) : List IpSlot :=
  allIps.filter (fun ip =>
    if filterOccupied = "occupied" then ip.occupied
    else if filterOccupied = "free" then !ip.occupied
    else true)

/-- `calcPct` of NodosRedPage.jsx lines 34-35:
`total > 0 ? Math.round((used / total) * 100) : 0`. -/
def calcPct (used total : ℕ) : ℤ :=
  if 0 < total then round (((used : ℚ) / (total : ℚ)) * 100) else 0

/-- `usedPct` of `InterfacePoolBlock` (CellDetailPage.jsx line 124):
`iface.total > 0 ? Math.round((iface.used / iface.total) * 100) : 0`. -/
def usedPct (used total : ℕ) : ℤ :=
  if 0 < total then round (((used : ℚ) / (total : ℚ)) * 100) else 0

/-- A NAP port as returned by the cascade/ports endpoint and consumed by
`CreateConnectionModal` (DashboardPage.jsx). -/
structure NapPort where
  id : ℕ
  port_number : ℕ
  is_occupied : Bool
  deriving DecidableEq, Repr

/-- The port narrowing of `CreateConnectionModal` (DashboardPage.jsx
line 381): `res.data.filter(p => !p.is_occupied)`. -/
def selectablePorts (resData : List NapPort) : List NapPort :=
  resData.filter (fun p => !p.is_occupied)

lemma filteredIps_occupied (l : List IpSlot) :
    filteredIps "occupied" l = l.filter (fun ip => ip.occupied) := by
  simp [filteredIps]

lemma filteredIps_free (l : List IpSlot) :
    filteredIps "free" l = l.filter (fun ip => !ip.occupied) := by
  simp [filteredIps]

lemma length_filter_add_length_filter_not {α : Type} (p : α → Bool) (l : List α) :
    (l.filter p).length + (l.filter (fun a => !p a)).length = l.length := by
  induction l with
  | nil => rfl
  | cons x xs ih =>
    cases h : p x <;> simp [List.filter_cons, h] <;> omega

/-- C2: pool percentage is division-by-zero safe: it equals
`round (100 * used / total)` when `total > 0` and `0` when `total = 0`;
2 occupied out of 6 yields 33; the CellDetailPage computation agrees. -/
theorem calcPct_spec :
    (∀ used total : ℕ, 0 < total →
      calcPct used total = round ((100 * (used : ℚ)) / (total : ℚ))) ∧
    (∀ used : ℕ, calcPct used 0 = 0) ∧
    calcPct 2 6 = 33 ∧
    (∀ used total : ℕ, usedPct used total = calcPct used total) := by
  refine ⟨?_, ?_, ?_, ?_⟩
  · intro u t ht
    unfold calcPct
    rw [if_pos ht]
    congr 1
    ring
  · intro u
    simp [calcPct]
  · unfold calcPct
    rw [if_pos (by norm_num)]
    rw [show (((2 : ℕ) : ℚ) / ((6 : ℕ) : ℚ)) * 100 = 100 / 3 by norm_num, round_eq]
    rw [show (100 / 3 + 1 / 2 : ℚ) = 203 / 6 by norm_num]
    rw [Int.floor_eq_iff]
    constructor <;> norm_num
  · intro u t
    rfl

/-- Witness for C2 at `used = 2`, `total = 6`. -/
theorem calcPct_spec_witness :
    0 < 6 ∧ calcPct 2 6 = round ((100 * (2 : ℚ)) / (6 : ℚ)) :=
  ⟨by decide, calcPct_spec.1 2 6 (by decide)⟩

/-- C10: the occupied and free filters are disjoint, their lengths sum
to the total, their concatenation is a permutation of the full list, and
the all filter returns the list unchanged. -/
theorem filteredIps_partition :
    (∀ l : List IpSlot, filteredIps "all" l = l) ∧
    (∀ l : List IpSlot,
      (filteredIps "occupied" l).length + (filteredIps "free" l).length = l.length) ∧
    (∀ l : List IpSlot,
      List.Perm (filteredIps "occupied" l ++ filteredIps "free" l) l) ∧
    (∀ (l : List IpSlot) (x : IpSlot),
      x ∈ filteredIps "occupied" l → x ∉ filteredIps "free" l) := by
  refine ⟨?_, ?_, ?_, ?_⟩
  · intro l
    simp [filteredIps]
  · intro l
    rw [filteredIps_occupied, filteredIps_free]
    exact length_filter_add_length_filter_not _ l
  · intro l
    rw [filteredIps_occupied, filteredIps_free]
    exact List.filter_append_perm _ l
  · intro l x hx hx'
    rw [filteredIps_occupied] at hx
    rw [filteredIps_free] at hx'
    have h1 := (List.mem_filter.mp hx).2
    have h2 := (List.mem_filter.mp hx').2
    simp at h1 h2
    exact absurd h1 (by simp [h2])

/-- Witness for C10 at a concrete two-slot list. -/
theorem filteredIps_partition_witness :
    ⟨"10.0.0.1", true, "ana"⟩ ∈ filteredIps "occupied" [⟨"10.0.0.1", true, "ana"⟩, ⟨"10.0.0.2", false, ""⟩] ∧
    ⟨"10.0.0.1", true, "ana"⟩ ∉ filteredIps "free" [⟨"10.0.0.1", true, "ana"⟩, ⟨"10.0.0.2", false, ""⟩] :=
  ⟨by decide, filteredIps_partition.2.2.2 _ _ (by decide)⟩

/-- A fixed 8-port NAP with exactly 3 occupied ports, for the C3
end-to-end scenario. -/
def demoPorts : List NapPort :=
  [⟨1, 1, true⟩, ⟨2, 2, true⟩, ⟨3, 3, true⟩, ⟨4, 4, false⟩,
   ⟨5, 5, false⟩, ⟨6, 6, false⟩, ⟨7, 7, false⟩, ⟨8, 8, false⟩]

/-- C3: the selectable port set is exactly the returned ports whose
`is_occupied` flag is false, and for 8 distinct ports with 3 occupied
exactly 5 distinct ports remain selectable. -/
theorem selectablePorts_spec :
    (∀ (resData : List NapPort) (p : NapPort),
      p ∈ selectablePorts resData ↔ p ∈ resData ∧ p.is_occupied = false) ∧
    (∀ resData : List NapPort, resData.length = 8 →
      resData.countP (fun p => p.is_occupied) = 3 → resData.Nodup →
      (selectablePorts resData).length = 5 ∧ (selectablePorts resData).Nodup) := by
  constructor
  · intro resData p
    constructor
    · intro h
      have := List.mem_filter.mp h
      refine ⟨this.1, ?_⟩
      simpa using this.2
    · intro h
      exact List.mem_filter.mpr ⟨h.1, by simp [h.2]⟩
  · intro resData hlen hcount hnd
    constructor
    · have hsum := length_filter_add_length_filter_not (fun p => p.is_occupied) resData
      have hocc : (resData.filter (fun p => p.is_occupied)).length = 3 := by
        rw [← List.countP_eq_length_filter]
        exact hcount
      unfold selectablePorts
      omega
    · exact hnd.filter _

/-- Witness for C3 at the fixed 8-port NAP. -/
theorem selectablePorts_spec_witness :
    (demoPorts.length = 8 ∧ demoPorts.countP (fun p => p.is_occupied) = 3 ∧ demoPorts.Nodup) ∧
    (selectablePorts demoPorts).length = 5 ∧ (selectablePorts demoPorts).Nodup :=
  ⟨⟨by decide, by decide, by decide⟩,
   selectablePorts_spec.2 demoPorts (by decide) (by decide) (by decide)⟩

/-- An assignment option entry of the CellsPage wizard: value plus
display label. -/
structure AssignmentOption where
  value : String
  label : String
  deriving DecidableEq, Repr

/-- `getSuggestedAssignment` (CellsPage.jsx lines 170-174). -/
def getSuggestedAssignment (t : String) : String :=
  if t = "fibra" then "pppoe_distributed"
  else if t = "hifiber_ipoe" then "dhcp_pool"
  else "static_addressing"

/-- `getAssignmentOptions` (CellsPage.jsx lines 176-181). -/
def getAssignmentOptions (t : String) : List AssignmentOption :=
  if t = "fibra" then
    [⟨"pppoe_distributed", "PPPoE Distribuido"⟩, ⟨"dhcp_pool", "DHCP Pool (IPoE)"⟩]
  else if t = "antenas" then
    [⟨"static_addressing", "Estático"⟩, ⟨"dhcp_pool", "DHCP Pool"⟩]
  else if t = "hifiber_ipoe" then
    [⟨"dhcp_pool", "DHCP Pool"⟩]
  else []

/-- The cell types offered by the wizard select (CellsPage.jsx line
386): fibra (fiber PPPoE), antenas (wireless), hifiber_ipoe (fiber
IPoE). -/
def cellTypeValues : List String :=
  ["fibra", "antenas", "hifiber_ipoe"]

/-- The values of the options offered for a cell type. -/
def assignmentValues (t : String) : List String :=
  (getAssignmentOptions t).map AssignmentOption.value

/-- C6: PPPoE is offered only for the fiber-PPPoE type, DHCP is offered
for the IPoE and wireless types, static addressing is offered only for
the wireless type, and on every cell-type change the assignment is reset
(CellsPage.jsx lines 243-245) to a value among the new type's options. -/
theorem assignmentOptions_spec :
    (∀ t : String, "pppoe_distributed" ∈ assignmentValues t ↔ t = "fibra") ∧
    ("dhcp_pool" ∈ assignmentValues "hifiber_ipoe" ∧
      "dhcp_pool" ∈ assignmentValues "antenas") ∧
    (∀ t : String, "static_addressing" ∈ assignmentValues t ↔ t = "antenas") ∧
    (∀ t : String, t ∈ cellTypeValues →
      getSuggestedAssignment t ∈ assignmentValues t) := by
  refine ⟨?_, ⟨by decide, by decide⟩, ?_, ?_⟩
  · intro t
    unfold assignmentValues getAssignmentOptions
    by_cases h1 : t = "fibra"
    · simp [h1]
    · by_cases h2 : t = "antenas"
      · simp [h1, h2]
      · by_cases h3 : t = "hifiber_ipoe"
        · simp [h1, h2, h3]
        · simp [h1, h2, h3]
  · intro t
    unfold assignmentValues getAssignmentOptions
    by_cases h1 : t = "fibra"
    · simp [h1]
    · by_cases h2 : t = "antenas"
      · simp [h1, h2]
      · by_cases h3 : t = "hifiber_ipoe"
        · simp [h1, h2, h3]
        · simp [h1, h2, h3]
  · intro t ht
    fin_cases ht <;> decide

/-- Witness for C6 at the wireless type. -/
theorem assignmentOptions_spec_witness :
    ("antenas" ∈ cellTypeValues ∧
      getSuggestedAssignment "antenas" ∈ assignmentValues "antenas") ∧
    ("static_addressing" ∈ assignmentValues "antenas" ↔ "antenas" = "antenas") :=
  ⟨⟨by decide, assignmentOptions_spec.2.2.2 "antenas" (by decide)⟩,
   assignmentOptions_spec.2.2.1 "antenas"⟩

/-- Outcome of submitting the connection form: either a validation
toast (and no write), or the create request that is posted. -/
inductive SubmitResult
  | validationError (msg : String)
  | postFiber
  deriving DecidableEq, Repr

/-- The fields of the fiber connection draft that `handleSubmit`
(DashboardPage.jsx lines 393-405) requires; the empty string is the
falsy "missing" value of the controlled inputs. -/
structure FiberForm where
  client_id : String
  cell_id : String
  plan_id : String
  olt_zone_id : String
  nap_id : String
  nap_port_id : String
  ip_address : String
  pppoe_username : String
  pppoe_password_encrypted : String
  onu_id : String
  deriving DecidableEq, Repr

/-- `handleSubmit` of `CreateConnectionModal` for a fiber cell
(DashboardPage.jsx lines 393-405): each falsy required field short
circuits into a toast error before the POST to /connections/fiber. -/
def handleSubmitFiber (f : FiberForm) : SubmitResult :=
  if f.client_id = "" then .validationError "Selecciona un cliente"
  else if f.cell_id = "" then .validationError "Selecciona una célula"
  else if f.plan_id = "" then .validationError "Selecciona un plan"
  else if f.olt_zone_id = "" ∨ f.nap_id = "" ∨ f.nap_port_id = "" then
    .validationError "Selecciona zona, NAP y puerto"
  else if f.ip_address = "" ∨ f.pppoe_username = "" ∨ f.pppoe_password_encrypted = "" then
    .validationError "Completa los datos PPPoE"
  else if f.onu_id = "" then .validationError "Selecciona una ONU"
  else .postFiber

/-- C8: with any required field missing the submission produces a
validation message and no create request; the write is issued exactly
when every required field is present. -/
theorem handleSubmitFiber_gates :
    ∀ f : FiberForm,
      ((f.client_id = "" ∨ f.cell_id = "" ∨ f.plan_id = "" ∨ f.olt_zone_id = "" ∨
        f.nap_id = "" ∨ f.nap_port_id = "" ∨ f.ip_address = "" ∨ f.pppoe_username = "" ∨
        f.pppoe_password_encrypted = "" ∨ f.onu_id = "") →
        ∃ msg, handleSubmitFiber f = .validationError msg) ∧
      (handleSubmitFiber f = .postFiber ↔
        (f.client_id ≠ "" ∧ f.cell_id ≠ "" ∧ f.plan_id ≠ "" ∧ f.olt_zone_id ≠ "" ∧
         f.nap_id ≠ "" ∧ f.nap_port_id ≠ "" ∧ f.ip_address ≠ "" ∧ f.pppoe_username ≠ "" ∧
         f.pppoe_password_encrypted ≠ "" ∧ f.onu_id ≠ "")) := by
  intro f
  unfold handleSubmitFiber
  split_ifs with h1 h2 h3 h4 h5 h6 <;>
    constructor <;> simp_all <;> tauto

/-- A complete fiber draft, for the C8 witness. -/
def demoDraft : FiberForm :=
  ⟨"7", "1", "3", "10", "20", "31", "10.0.0.5", "jperez.fibra", "pw", "44"⟩

/-- Witness for C8: a draft missing the ONU is rejected, the complete
draft is posted. -/
theorem handleSubmitFiber_gates_witness :
    (∃ msg, handleSubmitFiber { demoDraft with onu_id := "" } = .validationError msg) ∧
    handleSubmitFiber demoDraft = .postFiber :=
  ⟨(handleSubmitFiber_gates { demoDraft with onu_id := "" }).1 (by
      refine Or.inr (Or.inr (Or.inr (Or.inr (Or.inr (Or.inr (Or.inr (Or.inr (Or.inr ?_))))))))
      rfl),
   (handleSubmitFiber_gates demoDraft).2.mpr (by
      refine ⟨?_, ?_, ?_, ?_, ?_, ?_, ?_, ?_, ?_, ?_⟩ <;> decide)⟩

/-- MikroTik connection credentials as entered in the connect form. -/
structure Creds where
  host : String
  username : String
  password : String
  port : ℕ
  use_ssl : Bool
  deriving DecidableEq, Repr

/-- The system-info payload kept in page state after connecting. -/
structure SysInfo where
  identity : String
  deriving DecidableEq, Repr

/-- Pool data for one interface as returned by /mikrotik/ip-pool-live. -/
structure PoolIface where
  name : String
  has_pool : Bool
  cidrs : List String
  deriving DecidableEq, Repr

/-- The /mikrotik/ip-pool-live payload. -/
structure PoolData where
  interfaces : List PoolIface
  deriving DecidableEq, Repr

/-- The page state of `NodosRedPage` that `handleConnect` mutates. -/
structure ConnPageState where
  creds : Option Creds
  sysInfo : Option SysInfo
  poolData : Option PoolData
  loadingPool : Bool
  connecting : Bool
  deriving DecidableEq, Repr

/-- The initial `useState` values of `NodosRedPage`. -/
def initialConnPageState : ConnPageState :=
  ⟨none, none, none, false, false⟩

/-- `handleConnect` (NodosRedPage.jsx lines 894-933) as a function of
the two request outcomes: the system-info call sets `sysInfo` and
`creds`; the ip-pool-live call is fired afterwards with its rejection
swallowed (`.catch` silencioso) and `loadingPool` cleared in
`.finally`. -/
def handleConnect (s : ConnPageState) (formCreds : Creds)
    (sysResult : Except String SysInfo)
    (poolResult : Except String PoolData) : ConnPageState :=
  match sysResult with
  | .error _ => { s with connecting := false }
  | .ok info =>
    let s1 : ConnPageState :=
      { s with sysInfo := some info, creds := some formCreds,
               loadingPool := true, connecting := false }
    match poolResult with
    | .error _ => { s1 with loadingPool := false }
    | .ok pd => { s1 with poolData := some pd, loadingPool := false }

/-- The `poolMap` lookup of `InterfacesPanel` (NodosRedPage.jsx lines
546-548): `poolData?.interfaces || []` indexed by interface name. -/
def poolMapLookup (poolData : Option PoolData) (name : String) : Option PoolIface :=
  ((poolData.map PoolData.interfaces).getD []).find? (fun p => p.name == name)

/-- The `hasPool` test of `InterfaceIpBlock` (NodosRedPage.jsx lines
355-357): `poolIface?.has_pool && poolIface?.cidrs?.length > 0`. -/
def hasPool (poolIface : Option PoolIface) : Bool :=
  match poolIface with
  | none => false
  | some p => p.has_pool && decide (0 < p.cidrs.length)

/-- What the expanded interface block renders for its pool section. -/
inductive PoolSection
  | unavailable
  | poolTable (cidr : String)
  deriving DecidableEq, Repr

/-- The expanded body of `InterfaceIpBlock`: without a pool it renders
the "Sin rango IPv4 configurado" placeholder, otherwise the table of the
first CIDR. -/
def renderPoolSection (poolIface : Option PoolIface) : PoolSection :=
  if hasPool poolIface then
    .poolTable (((poolIface.map PoolIface.cidrs).getD []).headD "")
  else .unavailable

/-- C7: a failed live pool query never fails the connected view: the
error is absorbed, the pool data stays as it was (absent from the
initial state, so every interface resolves to no pool entry and renders
pool-unavailable), the loading flag is cleared, and the system info and
credentials feeding the traffic monitor survive. -/
theorem handleConnect_degrades :
    ∀ (s : ConnPageState) (c : Creds) (info : SysInfo) (e : String),
      (handleConnect s c (.ok info) (.error e)).sysInfo = some info ∧
      (handleConnect s c (.ok info) (.error e)).creds = some c ∧
      (handleConnect s c (.ok info) (.error e)).poolData = s.poolData ∧
      (handleConnect s c (.ok info) (.error e)).loadingPool = false ∧
      (handleConnect initialConnPageState c (.ok info) (.error e)).poolData = none ∧
      (∀ name : String, poolMapLookup none name = none) ∧
      (∀ name : String, renderPoolSection (poolMapLookup none name) = .unavailable) ∧
      hasPool none = false := by
  intro s c info e
  exact ⟨rfl, rfl, rfl, rfl, rfl, fun _ => rfl, fun _ => rfl, rfl⟩

/-- One interface entry of a traffic snapshot, as stored into `newData`
by `fetchTraffic`: cumulative byte counters plus the running flag. -/
structure Sample where
  tx : ℕ
  rx : ℕ
  running : Bool
  deriving DecidableEq, Repr

/-- One computed entry of `newRates`. -/
structure Rate where
  txBps : ℚ
  rxBps : ℚ
  running : Bool
  deriving DecidableEq, Repr

/-- The mutable refs of `TrafficMonitor`: `prevTimeRef` and
`prevRef`. -/
structure EngineState where
  prevTime : Option ℤ
  prev : List (String × Sample)
  deriving DecidableEq, Repr

/-- The refs before the very first poll. -/
def initialEngineState : EngineState :=
  ⟨none, []⟩

/-- The rate entry `fetchTraffic` computes for one interface present in
both snapshots:
`txBps = Math.max(0, (n.tx - p.tx) / dt)`, same for rx, independently. -/
def mkRate (dt : ℚ) (p n : Sample) : Rate :=
  ⟨max 0 (((n.tx : ℚ) - (p.tx : ℚ)) / dt),
   max 0 (((n.rx : ℚ) - (p.rx : ℚ)) / dt),
   n.running⟩

/-- The `newRates` computation of `fetchTraffic` (NodosRedPage.jsx
lines 256-270): empty unless a previous timestamp exists and
`now - prev_ts > 0`; otherwise, for each current interface whose name
has a previous sample, a rate over `dt = (now - prev_ts) / 1000`. -/
def computeRates (prevTime : Option ℤ) (prev : List (String × Sample))
    (now : ℤ) (curr : List (String × Sample)) : List (String × Rate) :=
  match prevTime with
  | none => []
  | some t =>
    if 0 < now - t then
      curr.filterMap (fun nd =>
        match prev.lookup nd.1 with
        | some p => some (nd.1, mkRate (((now - t : ℤ) : ℚ) / 1000) p nd.2)
        | none => none)
    else []

/-- One full `fetchTraffic` cycle: the refs are overwritten with the
fresh snapshot and timestamp, and the rates of this cycle are
returned. -/
def pollStep (s : EngineState) (now : ℤ) (curr : List (String × Sample)) :
    EngineState × List (String × Rate) :=
  (⟨some now, curr⟩, computeRates s.prevTime s.prev now curr)

/-- What the `TrafficMonitor` row shows next to an interface name
(NodosRedPage.jsx lines 310-321): the formatted rate when `rates[name]`
exists, the "Calculando..." badge otherwise. -/
inductive RateDisplay
  | calculating
  | rate (r : Rate)
  deriving DecidableEq, Repr

/-- The row state of `TrafficMonitor` for one interface. -/
def rateDisplay (rates : List (String × Rate)) (name : String) : RateDisplay :=
  match rates.lookup name with
  | none => .calculating
  | some r => .rate r

lemma lookup_rates_aux (prev : List (String × Sample)) (dt : ℚ)
    (curr : List (String × Sample)) (name : String) :
    (curr.filterMap (fun nd =>
      match prev.lookup nd.1 with
      | some p => some (nd.1, mkRate dt p nd.2)
      | none => none)).lookup name =
    (match prev.lookup name, curr.lookup name with
     | some p, some n => some (mkRate dt p n)
     | _, _ => none) := by
  induction curr with
  | nil =>
    cases prev.lookup name <;> rfl
  | cons hd tl ih =>
    obtain ⟨k, n⟩ := hd
    by_cases hk : name = k
    · subst hk
      cases hpk : prev.lookup name with
      | some q =>
        simp [List.filterMap_cons, hpk, List.lookup]
      | none =>
        simp only [List.filterMap_cons, hpk]
        rw [ih, hpk]
    · have hbeq : (name == k) = false := by
        simp [hk]
      cases hpk : prev.lookup k with
      | some q =>
        simp only [List.filterMap_cons, hpk, List.lookup, hbeq]
        rw [ih]
      | none =>
        simp only [List.filterMap_cons, hpk]
        rw [ih]
        simp [List.lookup, hbeq]

lemma computeRates_lookup_of_both {prev curr : List (String × Sample)}
    {t now : ℤ} {name : String} {p n : Sample}
    (ht : 0 < now - t)
    (hp : prev.lookup name = some p) (hn : curr.lookup name = some n) :
    (computeRates (some t) prev now curr).lookup name =
      some (mkRate (((now - t : ℤ) : ℚ) / 1000) p n) := by
  simp only [computeRates]
  rw [if_pos ht, lookup_rates_aux, hp, hn]

lemma computeRates_lookup_of_absent {prev curr : List (String × Sample)}
    {prevTime : Option ℤ} {now : ℤ} {name : String}
    (hp : prev.lookup name = none) :
    (computeRates prevTime prev now curr).lookup name = none := by
  cases prevTime with
  | none => rfl
  | some t =>
    simp only [computeRates]
    by_cases ht : 0 < now - t
    · rw [if_pos ht, lookup_rates_aux, hp]
    · rw [if_neg ht]
      rfl

lemma computeRates_mem_nonneg {prevTime : Option ℤ}
    {prev curr : List (String × Sample)} {now : ℤ}
    {entry : String × Rate}
    (h : entry ∈ computeRates prevTime prev now curr) :
    0 ≤ entry.2.txBps ∧ 0 ≤ entry.2.rxBps := by
  cases prevTime with
  | none => simp [computeRates] at h
  | some t =>
    simp only [computeRates] at h
    by_cases ht : 0 < now - t
    · rw [if_pos ht] at h
      obtain ⟨nd, _, hf⟩ := List.mem_filterMap.mp h
      cases hq : prev.lookup nd.1 with
      | some q =>
        rw [hq] at hf
        have : entry.2 = mkRate (((now - t : ℤ) : ℚ) / 1000) q nd.2 := by
          cases hf' : hf
          rfl
        rw [this]
        exact ⟨le_max_left 0 _, le_max_left 0 _⟩
      | none =>
        rw [hq] at hf
        cases hf
    · rw [if_neg ht] at h
      simp at h

/-- C1: for an interface present in both snapshots with `dt > 0`, the
reported rates are `max 0 ((curr - prev) / dt)` per direction; they are
never negative; the scenario `(t0, tx=1000)` then `(t0+1000ms, tx=2000)`
reports `txBps = 1000`, and the counter reset `tx=1000` then `tx=500`
reports `txBps = 0`. -/
theorem trafficRate_spec :
    (∀ (s : EngineState) (t now : ℤ) (curr : List (String × Sample))
       (name : String) (p n : Sample),
      s.prevTime = some t → 0 < now - t →
      s.prev.lookup name = some p → curr.lookup name = some n →
      (pollStep s now curr).2.lookup name =
        some ⟨max 0 (((n.tx : ℚ) - (p.tx : ℚ)) / (((now - t : ℤ) : ℚ) / 1000)),
              max 0 (((n.rx : ℚ) - (p.rx : ℚ)) / (((now - t : ℤ) : ℚ) / 1000)),
              n.running⟩) ∧
    (∀ (s : EngineState) (now : ℤ) (curr : List (String × Sample))
       (entry : String × Rate),
      entry ∈ (pollStep s now curr).2 → 0 ≤ entry.2.txBps ∧ 0 ≤ entry.2.rxBps) ∧
    (pollStep ⟨some 0, [("ether1", ⟨1000, 0, true⟩)]⟩ 1000
        [("ether1", ⟨2000, 0, true⟩)]).2.lookup "ether1" =
      some ⟨1000, 0, true⟩ ∧
    (pollStep ⟨some 0, [("ether1", ⟨1000, 0, true⟩)]⟩ 1000
        [("ether1", ⟨500, 0, true⟩)]).2.lookup "ether1" =
      some ⟨0, 0, true⟩ := by
  refine ⟨?_, ?_, ?_, ?_⟩
  · intro s t now curr name p n hpt ht hp hn
    unfold pollStep
    rw [hpt]
    exact computeRates_lookup_of_both ht hp hn
  · intro s now curr entry h
    exact computeRates_mem_nonneg h
  · show (computeRates (some 0) [("ether1", ⟨1000, 0, true⟩)] 1000
        [("ether1", ⟨2000, 0, true⟩)]).lookup "ether1" = _
    rw [computeRates_lookup_of_both (by norm_num)
      (p := ⟨1000, 0, true⟩) (by rfl) (by rfl)]
    unfold mkRate
    norm_num
  · show (computeRates (some 0) [("ether1", ⟨1000, 0, true⟩)] 1000
        [("ether1", ⟨500, 0, true⟩)]).lookup "ether1" = _
    rw [computeRates_lookup_of_both (by norm_num)
      (p := ⟨1000, 0, true⟩) (by rfl) (by rfl)]
    unfold mkRate
    norm_num

/-- Witness for C1 at the concrete 1000-byte / 1000-ms scenario. -/
theorem trafficRate_spec_witness :
    (pollStep ⟨some 0, [("ether1", ⟨1000, 0, true⟩)]⟩ 1000
        [("ether1", ⟨2000, 0, true⟩)]).2.lookup "ether1" =
      some ⟨max 0 ((((2000 : ℕ) : ℚ) - ((1000 : ℕ) : ℚ)) / ((((1000 : ℤ) - 0 : ℤ) : ℚ) / 1000)),
            max 0 ((((0 : ℕ) : ℚ) - ((0 : ℕ) : ℚ)) / ((((1000 : ℤ) - 0 : ℤ) : ℚ) / 1000)),
            true⟩ :=
  trafficRate_spec.1 ⟨some 0, [("ether1", ⟨1000, 0, true⟩)]⟩ 0 1000
    [("ether1", ⟨2000, 0, true⟩)] "ether1" ⟨1000, 0, true⟩ ⟨2000, 0, true⟩
    rfl (by norm_num) rfl rfl

/-- C9: an interface absent from the previous snapshot (in particular
every interface on the very first poll) gets no rate entry this cycle
and renders as "Calculando..."; on the next poll where it is present in
both snapshots a rate is reported. -/
theorem calculating_spec :
    (∀ (s : EngineState) (now : ℤ) (curr : List (String × Sample)),
      s.prevTime = none → (pollStep s now curr).2 = []) ∧
    (∀ (s : EngineState) (now : ℤ) (curr : List (String × Sample))
       (name : String),
      s.prev.lookup name = none →
      (pollStep s now curr).2.lookup name = none) ∧
    (∀ (rates : List (String × Rate)) (name : String),
      rates.lookup name = none → rateDisplay rates name = .calculating) ∧
    (∀ (s : EngineState) (now1 now2 : ℤ)
       (c1 c2 : List (String × Sample)) (name : String) (n1 n2 : Sample),
      c1.lookup name = some n1 → c2.lookup name = some n2 → 0 < now2 - now1 →
      ((pollStep (pollStep s now1 c1).1 now2 c2).2.lookup name).isSome = true) := by
  refine ⟨?_, ?_, ?_, ?_⟩
  · intro s now curr hpt
    unfold pollStep
    rw [hpt]
    rfl
  · intro s now curr name hp
    unfold pollStep
    exact computeRates_lookup_of_absent hp
  · intro rates name h
    unfold rateDisplay
    rw [h]
  · intro s now1 now2 c1 c2 name n1 n2 h1 h2 ht
    unfold pollStep
    rw [computeRates_lookup_of_both ht h1 h2]
    rfl

/-- Witness for C9: the first poll reports nothing, the second reports
a rate for the interface present in both snapshots. -/
theorem calculating_spec_witness :
    (pollStep initialEngineState 0 [("ether1", ⟨1000, 0, true⟩)]).2 = [] ∧
    ((pollStep (pollStep initialEngineState 0 [("ether1", ⟨1000, 0, true⟩)]).1 1000
        [("ether1", ⟨2000, 0, true⟩)]).2.lookup "ether1").isSome = true :=
  ⟨calculating_spec.1 initialEngineState 0 [("ether1", ⟨1000, 0, true⟩)] rfl,
   calculating_spec.2.2.2 initialEngineState 0 1000
     [("ether1", ⟨1000, 0, true⟩)] [("ether1", ⟨2000, 0, true⟩)] "ether1"
     ⟨1000, 0, true⟩ ⟨2000, 0, true⟩ rfl rfl (by norm_num)⟩

/-- A NAP record as served by the zones/{id}/cascade/naps endpoint. -/
structure Nap where
  id : ℕ
  zone_id : ℕ
  total_ports : ℕ
  occupied_count : ℕ
  deriving DecidableEq, Repr

/-- `Nap.freePorts`: the spec derivation
`free_ports = total_ports - occupied_count`. -/
def Nap.freePorts (n : Nap) : ℕ :=
  n.total_ports - n.occupied_count

/-- Modelled from the spec: the backend behind
GET /cells/zones/zoneId/cascade/naps, consumed unfiltered by
`CreateConnectionModal` (DashboardPage.jsx lines 371-373), is not under
src/; per the spec, selecting a Zone yields only NAPs belonging to it
with `free_ports = total_ports - occupied_count > 0`. -/
def cascadeNaps (directory : List Nap) (zoneId : ℕ) : List Nap :=
  directory.filter (fun n => n.zone_id == zoneId && decide (0 < n.freePorts))

/-- C4: after a Zone is selected the selectable NAP set holds exactly
the NAPs of that zone with positive free ports; a NAP with
`free_ports = 0` is never offered. -/
theorem cascadeNaps_spec :
    (∀ (directory : List Nap) (zoneId : ℕ) (n : Nap),
      n ∈ cascadeNaps directory zoneId ↔
        n ∈ directory ∧ n.zone_id = zoneId ∧ 0 < n.freePorts) ∧
    (∀ (directory : List Nap) (zoneId : ℕ) (n : Nap),
      n ∈ cascadeNaps directory zoneId → n.freePorts ≠ 0) := by
  constructor
  · intro directory zoneId n
    unfold cascadeNaps
    rw [List.mem_filter]
    constructor
    · intro ⟨hm, hb⟩
      simp only [Bool.and_eq_true, beq_iff_eq, decide_eq_true_eq] at hb
      exact ⟨hm, hb.1, hb.2⟩
    · intro ⟨hm, hz, hf⟩
      refine ⟨hm, ?_⟩
      simp only [Bool.and_eq_true, beq_iff_eq, decide_eq_true_eq]
      exact ⟨hz, hf⟩
  · intro directory zoneId n hn
    have hb := (List.mem_filter.mp hn).2
    simp only [Bool.and_eq_true, beq_iff_eq, decide_eq_true_eq] at hb
    omega

/-- Witness for C4 at a two-NAP directory: the full NAP is filtered
out, the one with free capacity is offered. -/
theorem cascadeNaps_spec_witness :
    (⟨21, 10, 8, 3⟩ : Nap) ∈ cascadeNaps [⟨20, 10, 8, 8⟩, ⟨21, 10, 8, 3⟩] 10 ∧
    (⟨21, 10, 8, 3⟩ : Nap).freePorts ≠ 0 :=
  ⟨(cascadeNaps_spec.1 [⟨20, 10, 8, 8⟩, ⟨21, 10, 8, 3⟩] 10 ⟨21, 10, 8, 3⟩).mpr
      ⟨by decide, by decide, by decide⟩,
   cascadeNaps_spec.2 [⟨20, 10, 8, 8⟩, ⟨21, 10, 8, 3⟩] 10 ⟨21, 10, 8, 3⟩
     ((cascadeNaps_spec.1 [⟨20, 10, 8, 8⟩, ⟨21, 10, 8, 3⟩] 10 ⟨21, 10, 8, 3⟩).mpr
       ⟨by decide, by decide, by decide⟩)⟩

/-- An OLT zone entry as served by /cells/cellId/zones. -/
structure OltZone where
  id : ℕ
  deriving DecidableEq, Repr

/-- The collaborators behind the cascade endpoints: the cell-type
oracle and the parent-to-children maps of the Directory. -/
structure CascadeEnv where
  fiberCell : ℕ → Bool
  zonesOf : ℕ → List OltZone
  napsOf : ℕ → List Nap
  portsOf : ℕ → List NapPort

/-- The cascade-relevant fields of the `CreateConnectionModal` form
state; `none` is the empty select value. -/
structure CascadeForm where
  cell_id : Option ℕ
  plan_id : Option ℕ
  olt_zone_id : Option ℕ
  nap_id : Option ℕ
  nap_port_id : Option ℕ
  onu_id : Option ℕ
  cpe_id : Option ℕ
  deriving DecidableEq, Repr

/-- The modal state: the form plus the fetched option lists. -/
structure CascadeState where
  form : CascadeForm
  zones : List OltZone
  naps : List Nap
  ports : List NapPort
  deriving DecidableEq, Repr

/-- The initial `useState` values of the modal. -/
def initialCascadeState : CascadeState :=
  ⟨⟨none, none, none, none, none, none, none⟩, [], [], []⟩

/-- `isFibra` (DashboardPage.jsx line 390): whether the currently
selected cell is fiber typed, which gates rendering of the cascade. -/
def isFibra (env : CascadeEnv) (s : CascadeState) : Bool :=
  match s.form.cell_id with
  | some c => env.fiberCell c
  | none => false

/-- A user selection on one of the four cascaded selects. -/
inductive CascadeEvent
  | selCell (c : Option ℕ) (ok : Bool)
  | selZone (z : Option ℕ) (ok : Bool)
  | selNap (n : Option ℕ) (ok : Bool)
  | selPort (p : Option ℕ)
  deriving DecidableEq, Repr

/-- Whether the option-list fetch fired by a selection succeeded; a
port selection fires no fetch. -/
def CascadeEvent.fetchOk : CascadeEvent → Bool
  | .selCell _ ok => ok
  | .selZone _ ok => ok
  | .selNap _ ok => ok
  | .selPort _ => true

/-- One selection with its `useEffect` reactions (DashboardPage.jsx
lines 331-383): a cell selection resets plan, zone, NAP, port, ONU and
CPE, clears all option lists synchronously, then reloads the zones
(`ok` is the outcome of that load: on failure only a toast fires, so
the just-cleared lists stay empty); a zone selection resets NAP and
port and fetches the NAPs of the zone, but its `.catch` only toasts,
so on failure the previously loaded NAP list survives; a NAP selection
resets the port and fetches the free ports of the NAP, with the same
stale-list-on-failure behaviour; clearing a select to its placeholder
empties the downstream option lists without touching other fields.  A
selection on a select that is not rendered (cascade hidden for a non
fiber cell) or disabled (predecessor missing), or of a value that is
not among the offered options, leaves the state unchanged. -/
def cascadeStep (env : CascadeEnv) (s : CascadeState) (e : CascadeEvent) : CascadeState :=
  match e with
  | .selCell none _ =>
      { s with form := { s.form with cell_id := none } }
  | .selCell (some c) ok =>
      let f := { s.form with
                 cell_id := some c, plan_id := none, olt_zone_id := none,
                 nap_id := none, nap_port_id := none, onu_id := none,
                 cpe_id := none }
      { form := f,
        zones := if ok && env.fiberCell c then env.zonesOf c else [],
        naps := [], ports := [] }
  | .selZone none _ =>
      if isFibra env s then
        { s with form := { s.form with olt_zone_id := none },
                 naps := [], ports := [] }
      else s
  | .selZone (some z) ok =>
      if isFibra env s && s.zones.any (fun zo => zo.id == z) then
        let f := { s.form with
                   olt_zone_id := some z, nap_id := none, nap_port_id := none }
        { s with form := f,
                 naps := if ok then env.napsOf z else s.naps,
                 ports := if s.form.nap_id.isSome then [] else s.ports }
      else s
  | .selNap none _ =>
      if isFibra env s && s.form.olt_zone_id.isSome then
        { s with form := { s.form with nap_id := none }, ports := [] }
      else s
  | .selNap (some n) ok =>
      if isFibra env s && s.form.olt_zone_id.isSome &&
          s.naps.any (fun na => na.id == n) then
        let f := { s.form with nap_id := some n, nap_port_id := none }
        { s with form := f,
                 ports := if ok then selectablePorts (env.portsOf n) else s.ports }
      else s
  | .selPort none =>
      if isFibra env s && s.form.nap_id.isSome then
        { s with form := { s.form with nap_port_id := none } }
      else s
  | .selPort (some p) =>
      if isFibra env s && s.form.nap_id.isSome &&
          s.ports.any (fun q => q.id == p) then
        { s with form := { s.form with nap_port_id := some p } }
      else s

/-- The states reachable by replaying a selection history. -/
def runCascade (env : CascadeEnv) (es : List CascadeEvent) : CascadeState :=
  es.foldl (cascadeStep env) initialCascadeState

/-- The inductive invariant of the cascade: every fetched option list
matches the current ancestor selection, and every selected value was
taken from the matching list. -/
def CascadeInv (env : CascadeEnv) (s : CascadeState) : Prop :=
  (∀ c, s.form.cell_id = some c →
    s.zones = (if env.fiberCell c then env.zonesOf c else [])) ∧
  (∀ z c, s.form.olt_zone_id = some z → s.form.cell_id = some c →
    env.fiberCell c = true ∧ ∃ zo ∈ env.zonesOf c, zo.id = z) ∧
  (∀ z, s.form.olt_zone_id = some z → s.naps = env.napsOf z) ∧
  (∀ z n, s.form.olt_zone_id = some z → s.form.nap_id = some n →
    (∃ na ∈ env.napsOf z, na.id = n) ∧ s.ports = selectablePorts (env.portsOf n)) ∧
  (∀ n p, s.form.nap_id = some n → s.form.nap_port_id = some p →
    ∃ q ∈ env.portsOf n, q.id = p ∧ q.is_occupied = false) ∧
  (∀ n, s.form.nap_id = some n → s.form.olt_zone_id = none → s.ports = [])

lemma cascadeInv_init (env : CascadeEnv) : CascadeInv env initialCascadeState := by
  refine ⟨?_, ?_, ?_, ?_, ?_, ?_⟩ <;> intros <;> simp_all [initialCascadeState]

lemma isFibra_cell {env : CascadeEnv} {s : CascadeState}
    (hfib : isFibra env s = true) :
    ∃ c, s.form.cell_id = some c ∧ env.fiberCell c = true := by
  unfold isFibra at hfib
  cases hcc : s.form.cell_id with
  | none => rw [hcc] at hfib; cases hfib
  | some c =>
    rw [hcc] at hfib
    exact ⟨c, rfl, hfib⟩

lemma cascadeInv_step (env : CascadeEnv) (s : CascadeState) (e : CascadeEvent)
    (hok : e.fetchOk = true) (h : CascadeInv env s) :
    CascadeInv env (cascadeStep env s e) := by
  obtain ⟨h1, h2, h3, h4, h5, h6⟩ := h
  cases e with
  | selCell c ok =>
    simp only [CascadeEvent.fetchOk] at hok
    subst hok
    cases c with
    | none =>
      refine ⟨?_, ?_, ?_, ?_, ?_, ?_⟩ <;>
        simp only [cascadeStep] <;> intros <;> simp_all
    | some c =>
      refine ⟨?_, ?_, ?_, ?_, ?_, ?_⟩ <;>
        simp only [cascadeStep] <;> intros <;> simp_all
  | selZone z ok =>
    simp only [CascadeEvent.fetchOk] at hok
    subst hok
    cases z with
    | none =>
      by_cases hg : isFibra env s = true
      · refine ⟨?_, ?_, ?_, ?_, ?_, ?_⟩ <;>
          simp only [cascadeStep, hg, if_true] <;> intros <;> simp_all
      · simp only [cascadeStep, hg]
        exact ⟨h1, h2, h3, h4, h5, h6⟩
    | some z =>
      by_cases hg : (isFibra env s && s.zones.any (fun zo => zo.id == z)) = true
      · obtain ⟨hfib, hany⟩ := Bool.and_eq_true_iff.mp hg
        obtain ⟨c, hc, hfc⟩ := isFibra_cell hfib
        have hzones : s.zones = env.zonesOf c := by
          rw [h1 c hc, if_pos hfc]
        rw [hzones, List.any_eq_true] at hany
        refine ⟨?_, ?_, ?_, ?_, ?_, ?_⟩ <;>
          simp only [cascadeStep, hg, if_true] <;> intros <;> simp_all
      · simp only [cascadeStep, hg]
        exact ⟨h1, h2, h3, h4, h5, h6⟩
  | selNap n ok =>
    simp only [CascadeEvent.fetchOk] at hok
    subst hok
    cases n with
    | none =>
      by_cases hg : (isFibra env s && s.form.olt_zone_id.isSome) = true
      · refine ⟨?_, ?_, ?_, ?_, ?_, ?_⟩ <;>
          simp only [cascadeStep, hg, if_true] <;> intros <;> simp_all
      · simp only [cascadeStep, hg]
        exact ⟨h1, h2, h3, h4, h5, h6⟩
    | some n =>
      by_cases hg : (isFibra env s && s.form.olt_zone_id.isSome &&
          s.naps.any (fun na => na.id == n)) = true
      · obtain ⟨hfg, hany⟩ := Bool.and_eq_true_iff.mp hg
        obtain ⟨hfib, hzsome⟩ := Bool.and_eq_true_iff.mp hfg
        obtain ⟨z0, hz0⟩ := Option.isSome_iff_exists.mp hzsome
        have hnaps : s.naps = env.napsOf z0 := h3 z0 hz0
        rw [hnaps, List.any_eq_true] at hany
        refine ⟨?_, ?_, ?_, ?_, ?_, ?_⟩ <;>
          simp only [cascadeStep, hg, if_true] <;> intros <;> simp_all
      · simp only [cascadeStep, hg]
        exact ⟨h1, h2, h3, h4, h5, h6⟩
  | selPort p =>
    cases p with
    | none =>
      by_cases hg : (isFibra env s && s.form.nap_id.isSome) = true
      · refine ⟨?_, ?_, ?_, ?_, ?_, ?_⟩ <;>
          simp only [cascadeStep, hg, if_true] <;> intros <;> simp_all
      · simp only [cascadeStep, hg]
        exact ⟨h1, h2, h3, h4, h5, h6⟩
    | some p =>
      by_cases hg : (isFibra env s && s.form.nap_id.isSome &&
          s.ports.any (fun q => q.id == p)) = true
      · obtain ⟨hfg, hany⟩ := Bool.and_eq_true_iff.mp hg
        obtain ⟨hfib, hnsome⟩ := Bool.and_eq_true_iff.mp hfg
        obtain ⟨n0, hn0⟩ := Option.isSome_iff_exists.mp hnsome
        have hports : s.ports = selectablePorts (env.portsOf n0) := by
          cases hzz : s.form.olt_zone_id with
          | some z0 => exact (h4 z0 n0 hzz hn0).2
          | none =>
            exfalso
            rw [h6 n0 hn0 hzz] at hany
            simp at hany
        have hfree : ∃ q ∈ env.portsOf n0, q.id = p ∧ q.is_occupied = false := by
          rw [hports, List.any_eq_true] at hany
          obtain ⟨q, hq, hid⟩ := hany
          have := List.mem_filter.mp hq
          refine ⟨q, this.1, ?_, ?_⟩
          · exact beq_iff_eq.mp hid
          · simpa using this.2
        refine ⟨?_, ?_, ?_, ?_, ?_, ?_⟩ <;>
          simp only [cascadeStep, hg, if_true] <;> intros <;> simp_all
      · simp only [cascadeStep, hg]
        exact ⟨h1, h2, h3, h4, h5, h6⟩

lemma cascadeInv_foldl (env : CascadeEnv) (es : List CascadeEvent) :
    ∀ s : CascadeState, CascadeInv env s → (∀ e ∈ es, e.fetchOk = true) →
      CascadeInv env (es.foldl (cascadeStep env) s) := by
  induction es with
  | nil =>
    intro s h _
    exact h
  | cons e es ih =>
    intro s h hes
    exact ih _ (cascadeInv_step env s e (hes e (List.mem_cons_self e es)) h)
      (fun x hx => hes x (List.mem_cons_of_mem e hx))

lemma cascadeInv_run (env : CascadeEnv) (es : List CascadeEvent)
    (hes : ∀ e ∈ es, e.fetchOk = true) :
    CascadeInv env (runCascade env es) :=
  cascadeInv_foldl env es initialCascadeState (cascadeInv_init env) hes

/-- C5 (amended): selecting a cell clears the zone, NAP, port, ONU and
CPE choices, an effective zone selection clears the NAP and port
choices, an effective NAP selection clears the port choice, and a
selection whose predecessor is missing is a no-op — all regardless of
whether the fired option-list fetch succeeds; and in every state
reachable by a history whose option-list fetches all succeed, the
selected zone, NAP and port come from the children lists of their
currently selected ancestors (the zone from the cell's zones, the NAP
from the zone's NAPs, the port a free port of the NAP).  The success
proviso is necessary: a failed fetch leaves the previous option list in
place (see the stale-list counterexample below). -/
theorem cascade_spec (env : CascadeEnv) :
    (∀ (s : CascadeState) (c : ℕ) (ok : Bool),
      (cascadeStep env s (.selCell (some c) ok)).form.olt_zone_id = none ∧
      (cascadeStep env s (.selCell (some c) ok)).form.nap_id = none ∧
      (cascadeStep env s (.selCell (some c) ok)).form.nap_port_id = none ∧
      (cascadeStep env s (.selCell (some c) ok)).form.onu_id = none ∧
      (cascadeStep env s (.selCell (some c) ok)).form.cpe_id = none) ∧
    (∀ (s : CascadeState) (z : ℕ) (ok : Bool),
      cascadeStep env s (.selZone (some z) ok) = s ∨
      ((cascadeStep env s (.selZone (some z) ok)).form.olt_zone_id = some z ∧
       (cascadeStep env s (.selZone (some z) ok)).form.nap_id = none ∧
       (cascadeStep env s (.selZone (some z) ok)).form.nap_port_id = none)) ∧
    (∀ (s : CascadeState) (n : ℕ) (ok : Bool),
      cascadeStep env s (.selNap (some n) ok) = s ∨
      ((cascadeStep env s (.selNap (some n) ok)).form.nap_id = some n ∧
       (cascadeStep env s (.selNap (some n) ok)).form.nap_port_id = none)) ∧
    (∀ (s : CascadeState) (z : ℕ) (ok : Bool), isFibra env s = false →
      cascadeStep env s (.selZone (some z) ok) = s) ∧
    (∀ (s : CascadeState) (n : ℕ) (ok : Bool), s.form.olt_zone_id = none →
      cascadeStep env s (.selNap (some n) ok) = s) ∧
    (∀ (s : CascadeState) (p : ℕ), s.form.nap_id = none →
      cascadeStep env s (.selPort (some p)) = s) ∧
    (∀ es : List CascadeEvent, (∀ e ∈ es, e.fetchOk = true) →
      (∀ c z, (runCascade env es).form.cell_id = some c →
        (runCascade env es).form.olt_zone_id = some z →
        ∃ zo ∈ env.zonesOf c, zo.id = z) ∧
      (∀ z n, (runCascade env es).form.olt_zone_id = some z →
        (runCascade env es).form.nap_id = some n →
        ∃ na ∈ env.napsOf z, na.id = n) ∧
      (∀ n p, (runCascade env es).form.nap_id = some n →
        (runCascade env es).form.nap_port_id = some p →
        ∃ q ∈ env.portsOf n, q.id = p ∧ q.is_occupied = false)) := by
  refine ⟨?_, ?_, ?_, ?_, ?_, ?_, ?_⟩
  · intro s c ok
    simp [cascadeStep]
  · intro s z ok
    by_cases hg : (isFibra env s && s.zones.any (fun zo => zo.id == z)) = true
    · right
      simp [cascadeStep, hg]
    · left
      simp [cascadeStep, hg]
  · intro s n ok
    by_cases hg : (isFibra env s && s.form.olt_zone_id.isSome &&
        s.naps.any (fun na => na.id == n)) = true
    · right
      simp [cascadeStep, hg]
    · left
      simp [cascadeStep, hg]
  · intro s z ok h
    simp [cascadeStep, h]
  · intro s n ok h
    simp [cascadeStep, h]
  · intro s p h
    simp [cascadeStep, h]
  · intro es hes
    obtain ⟨i1, i2, i3, i4, i5, i6⟩ := cascadeInv_run env es hes
    refine ⟨?_, ?_, ?_⟩
    · intro c z hc hz
      exact (i2 z c hz hc).2
    · intro z n hz hn
      exact (i4 z n hz hn).1
    · intro n p hn hp
      exact i5 n p hn hp

/-- A concrete fiber topology for the C5 witness: one cell with one
zone, one NAP, and the 8-port NAP of the C3 scenario. -/
def demoEnv : CascadeEnv :=
  ⟨fun _ => true,
   fun c => if c = 1 then [⟨10⟩] else [],
   fun z => if z = 10 then [⟨20, 10, 8, 3⟩] else [],
   fun n => if n = 20 then demoPorts else []⟩

/-- A full selection history with every fetch succeeding: cell 1,
zone 10, NAP 20, port 4. -/
def demoEvents : List CascadeEvent :=
  [.selCell (some 1) true, .selZone (some 10) true,
   .selNap (some 20) true, .selPort (some 4)]

/-- Witness for C5: after the concrete all-fetches-succeed history, the
selected zone, NAP and port belong to their selected ancestors. -/
theorem cascade_spec_witness :
    (∃ zo ∈ demoEnv.zonesOf 1, zo.id = 10) ∧
    (∃ na ∈ demoEnv.napsOf 10, na.id = 20) ∧
    (∃ q ∈ demoEnv.portsOf 20, q.id = 4 ∧ q.is_occupied = false) :=
  ⟨((cascade_spec demoEnv).2.2.2.2.2.2 demoEvents (by decide)).1 1 10
      (by decide) (by decide),
   ((cascade_spec demoEnv).2.2.2.2.2.2 demoEvents (by decide)).2.1 10 20
      (by decide) (by decide),
   ((cascade_spec demoEnv).2.2.2.2.2.2 demoEvents (by decide)).2.2 20 4
      (by decide) (by decide)⟩

/-- A topology with two zones under the one cell, for the C5
counterexample. -/
def demoEnv2 : CascadeEnv :=
  ⟨fun _ => true,
   fun c => if c = 1 then [⟨10⟩, ⟨11⟩] else [],
   fun z => if z = 10 then [⟨20, 10, 8, 3⟩]
            else if z = 11 then [⟨21, 11, 8, 3⟩] else [],
   fun n => if n = 20 then demoPorts else []⟩

/-- The failing history: zone 10 loads its NAPs, the switch to zone 11
has its NAP fetch fail (the `.catch` at DashboardPage.jsx line 373 only
fires a toast, leaving the previous list), and NAP 20 of zone 10 is
then selected from the surviving stale list. -/
def demoStaleEvents : List CascadeEvent :=
  [.selCell (some 1) true, .selZone (some 10) true,
   .selZone (some 11) false, .selNap (some 20) true, .selPort (some 4)]

/-- C5 counterexample: after the failing history every field of the
fiber draft is selected, yet the selected NAP does not belong to the
selected zone — the unconditional ancestor invariant is false of the
program. -/
theorem cascade_stale_counterexample :
    (runCascade demoEnv2 demoStaleEvents).form.cell_id = some 1 ∧
    (runCascade demoEnv2 demoStaleEvents).form.olt_zone_id = some 11 ∧
    (runCascade demoEnv2 demoStaleEvents).form.nap_id = some 20 ∧
    (runCascade demoEnv2 demoStaleEvents).form.nap_port_id = some 4 ∧
    ¬ ∃ na ∈ demoEnv2.napsOf 11, na.id = 20 :=
  ⟨by decide, by decide, by decide, by decide, by decide⟩

end ZetaNet
